import Mathlib

/-!
Verification of the step-orchestrated form engine of the rhf-zod-playground
repository.  The definitions below are a shallow embedding of the relevant
source files:

* src/schemas/onboarding.schema.ts — the zod domain schema, its superRefine
  cross-field rules, and the derived step schemas;
* src/examples/multi-step-single-form (MultiStepSingleForm) — the dynamic
  step list, step-scoped validation, and the submission handler onSubmit;
* src/examples/conditional-steps/ConditionalStepsForm.tsx — the dynamic
  step list over attendanceType, the render-time index clamp
  (safeCurrentStep), and the navigation handlers;
* src/mock/api.ts — the shape of the endpoint response (ApiResponse).

Strings are modelled by Lean String, JS numbers that the schema constrains
by Int, optional values by Option.  Zod collects every failing check of the
base object in field-declaration order and runs superRefine only when the
base object parse produced no issue; both behaviours are reproduced below.
-/

namespace RhfZod

/-- Character range test on code points, used to embed the regex character
classes of the schema. -/
def charBetween (lo hi : Nat) (c : Char) : Bool :=
  decide (lo ≤ c.toNat ∧ c.toNat ≤ hi)

/-- Embeds the regex class [0-9]. -/
def isDigitChar (c : Char) : Bool :=
  charBetween 48 57 c

/-- Embeds the regex class [A-Z]. -/
def isUpperChar (c : Char) : Bool :=
  charBetween 65 90 c

/-- Embeds the regex class [A-Za-z]. -/
def isAlphaChar (c : Char) : Bool :=
  isUpperChar c || charBetween 97 122 c

/-- Embeds the regex class [A-Za-z0-9]. -/
def isAlnumChar (c : Char) : Bool :=
  isAlphaChar c || isDigitChar c

/-- Splits a character list at every occurrence of the separator, keeping
empty segments, like the splitting a regex such as the zod email pattern
performs around its anchors. -/
def splitOnChar (sep : Char) : List Char → List (List Char)
  | [] => [[]]
  | d :: rest =>
    let r := splitOnChar sep rest
    if d = sep then [] :: r
    else
      match r with
      | [] => [[d]]
      | g :: gs => (d :: g) :: gs

/-- True when the list contains two consecutive dots; the zod email regex
rejects such strings with a lookahead. -/
def hasDoubleDot : List Char → Bool
  | c :: d :: rest => (c = '.' && d = '.') || hasDoubleDot (d :: rest)
  | _ => false

/-- Characters allowed in the local part of an email by the zod regex:
alphanumeric, underscore, apostrophe (code point 39), plus, minus, dot. -/
def localCharOk (c : Char) : Bool :=
  isAlnumChar c || c = '_' || c.toNat == 39 || c = '+' || c = '-' || c = '.'

/-- Characters allowed as the last character of the local part. -/
def localEndOk (c : Char) : Bool :=
  isAlnumChar c || c = '_' || c = '+' || c = '-'

/-- A non-final domain label: starts alphanumeric, continues with
alphanumerics and hyphens. -/
def labelOk : List Char → Bool
  | [] => false
  | c :: rest => isAlnumChar c && rest.all (fun d => isAlnumChar d || d = '-')

/-- The final domain label: at least two letters. -/
def tldOk (cs : List Char) : Bool :=
  decide (2 ≤ cs.length) && cs.all isAlphaChar

/-- Embeds the zod email format check used by z.string().email():
one at-sign separating a non-empty local part (restricted character set,
no leading dot, no double dot, restricted final character) from a domain
of dot-separated labels ending in an alphabetic top-level label. -/
def emailFormatOk (s : String) : Bool :=
  match splitOnChar '@' s.data with
  | [l, d] =>
    !l.isEmpty && l.all localCharOk && localEndOk (l.getLast?.getD ' ')
      && !(l.head?.getD ' ' == '.') && !hasDoubleDot s.data
      && (let labels := splitOnChar '.' d
          decide (2 ≤ labels.length) && labels.dropLast.all labelOk
            && tldOk (labels.getLast?.getD []))
  | _ => false

/-- Embeds the phone regex of the schema: an optional leading plus sign
followed by 10 to 14 digits. -/
def phoneFormatOk (s : String) : Bool :=
  let ds :=
    match s.data with
    | '+' :: rest => rest
    | cs => cs
  ds.all isDigitChar && decide (10 ≤ ds.length) && decide (ds.length ≤ 14)

/-- Minimum-length check corresponding to z.string().min(n, msg). -/
def minLenOk (n : Nat) (s : String) : Bool :=
  decide (n ≤ s.length)

/-- FieldPath values of the onboarding domain schema
(src/schemas/onboarding.schema.ts). -/
inductive Field
  | email
  | password
  | confirmPassword
  | firstName
  | lastName
  | phone
  | accountType
  | companyName
  | teamSize
  | role
deriving DecidableEq

/-- The accountType discriminator, z.enum(["personal", "business"]). -/
inductive AccountType
  | personal
  | business
deriving DecidableEq

/-- The complete DomainRecord of the onboarding flow; optional schema
fields are Option-valued. -/
structure OnboardingData where
  email : String
  password : String
  confirmPassword : String
  firstName : String
  lastName : String
  phone : String
  accountType : AccountType
  companyName : Option String
  teamSize : Option Int
  role : Option String
deriving DecidableEq

/-- One zod issue: a field path and a message, as produced into
result.error.issues. -/
structure Issue where
  path : Field
  message : String
deriving DecidableEq

/-- The base object checks of onboardingSchema, in field-declaration order,
collecting every failing check of every field exactly as zod does. -/
def baseIssues (r : OnboardingData) : List Issue :=
  (if minLenOk 1 r.email then [] else [⟨.email, "Email is required"⟩])
    ++ (if emailFormatOk r.email then [] else [⟨.email, "Invalid email format"⟩])
    ++ (if minLenOk 8 r.password then [] else
        [⟨.password, "Password must be at least 8 characters"⟩])
    ++ (if r.password.data.any isUpperChar then [] else
        [⟨.password, "Password must contain at least one uppercase letter"⟩])
    ++ (if r.password.data.any isDigitChar then [] else
        [⟨.password, "Password must contain at least one number"⟩])
    ++ (if minLenOk 1 r.confirmPassword then [] else
        [⟨.confirmPassword, "Please confirm your password"⟩])
    ++ (if minLenOk 1 r.firstName then [] else
        [⟨.firstName, "First name is required"⟩])
    ++ (if minLenOk 1 r.lastName then [] else
        [⟨.lastName, "Last name is required"⟩])
    ++ (if minLenOk 1 r.phone then [] else
        [⟨.phone, "Phone number is required"⟩])
    ++ (if phoneFormatOk r.phone then [] else
        [⟨.phone, "Invalid phone number format"⟩])
    ++ (match r.teamSize with
        | none => []
        | some t =>
          if t < 1 then
            [⟨.teamSize, "Number must be greater than or equal to 1"⟩]
          else [])

/-- True when the JS test (!data.companyName || data.companyName.length === 0)
holds: the option is absent or the string is empty. -/
def companyNameMissing : Option String → Bool
  | none => true
  | some s => s.length == 0

/-- True when the JS test (!data.teamSize || data.teamSize < 1) holds:
absent, zero (falsy), or below one. -/
def teamSizeMissing : Option Int → Bool
  | none => true
  | some t => t == 0 || t < 1

/-- The superRefine block of onboardingSchema: password confirmation and
the business-account conditional requirements, in source order. -/
def refineIssues (r : OnboardingData) : List Issue :=
  (if r.password = r.confirmPassword then [] else
    [⟨.confirmPassword, "Passwords do not match"⟩])
    ++ (if r.accountType = .business then
          (if companyNameMissing r.companyName then
            [⟨.companyName, "Company name is required for business accounts"⟩]
           else [])
            ++ (if teamSizeMissing r.teamSize then
                  [⟨.teamSize, "Team size is required for business accounts"⟩]
                else [])
        else [])

/-- Full-schema validation, onboardingSchema.safeParse: the refinement
block runs only when the base object parse produced no issue. -/
def fullParse (r : OnboardingData) : List Issue :=
  let base := baseIssues r
  if base.isEmpty then refineIssues r else base

/-- A StepDefinition of the multi-step single form: a label and the field
set the step owns (the renderer is irrelevant to the properties proved
here and is omitted). -/
structure StepConfig where
  label : String
  fields : List Field
deriving DecidableEq

/-- The dynamic step list of MultiStepSingleForm: three base steps, plus
the Company step exactly when accountType is business. -/
def computeStepsMS (accountType : AccountType) : List StepConfig :=
  [⟨"Account", [.email, .password, .confirmPassword]⟩,
   ⟨"Profile", [.firstName, .lastName, .phone]⟩,
   ⟨"Account Type", [.accountType]⟩]
    ++ (if accountType = .business then
          [⟨"Company", [.companyName, .teamSize, .role]⟩]
        else [])

/-- The endpoint response shape of src/mock/api.ts: success with an id,
failure with an optional error string, or a transport-level rejection. -/
inductive ApiResponse
  | ok (id : String)
  | fail (error : Option String)
  | reject
deriving DecidableEq

/-- The component state of MultiStepSingleForm that the submission handler
can read or write: the current step index, the form state store, the
persisted localStorage draft, and the submit-result banner. -/
structure MSState where
  currentStep : Nat
  store : OnboardingData
  draft : Option String
  submitResult : Option (Bool × String)
deriving DecidableEq

/-- The failure message computed by (response.error || "Something went
wrong"): the error string when present and non-empty (JS truthiness),
the generic message otherwise. -/
def failMessage : Option String → String
  | some e => if e.length == 0 then "Something went wrong" else e
  | none => "Something went wrong"

/-- The submission handler onSubmit of MultiStepSingleForm, as a function
from the pre-state and the endpoint response to the post-state and the
list of records sent to the endpoint.  On full-schema failure it looks up
the first step whose field set contains the first issue and navigates
there (or returns silently when none exists); on full-schema success it
calls the endpoint once, clearing the draft and reporting success on an
ok reply, and reporting the failure message otherwise.  Zod parsing is the
identity on records of this schema (no transforms), so result.data is the
store itself. -/
def onSubmitMS (st : MSState) (resp : ApiResponse) : MSState × List OnboardingData :=
  match (fullParse st.store).head? with
  | some issue =>
    match (computeStepsMS st.store.accountType).findIdx?
        (fun s => s.fields.contains issue.path) with
    | some i => ({ st with currentStep := i }, [])
    | none => (st, [])
  | none =>
    match resp with
    | .ok id =>
      ({ st with
          draft := none
          submitResult := some (true, "Account created successfully! ID: " ++ id) },
       [st.store])
    | .fail err =>
      ({ st with submitResult := some (false, failMessage err) }, [st.store])
    | .reject =>
      ({ st with submitResult := some (false, "Network error. Please try again.") },
       [st.store])

/-- The displayed error of one field under the full-schema resolver: the
message of the first issue at that path, when any. -/
def zodFieldError (r : OnboardingData) (f : Field) : Option String :=
  ((fullParse r).find? (fun i => i.path == f)).map (fun i => i.message)

/-- Modelled from the spec: the trigger(fieldNames) operation of the form
library (react-hook-form) is an external dependency, not part of this
repository.  Per the spec (§4.3), requestValidation returns true iff every
named field currently passes, updates the displayed error state of exactly
the named fields, and must not touch the displayed state of any other
field.  The validator applied is the full-schema resolver configured in
the source (zodResolver(onboardingSchema)), restricted to the named
fields. -/
def triggerFields (r : OnboardingData) (F : List Field)
    (displayed : Field → Option String) : Bool × (Field → Option String) :=
  (F.all (fun f => (zodFieldError r f).isNone),
   fun f => if f ∈ F then zodFieldError r f else displayed f)

/-- validateCurrentStep of MultiStepSingleForm: trigger over the field set
of the current step, false when the index is out of range. -/
def validateCurrentStepMS (r : OnboardingData) (currentStep : Nat)
    (displayed : Field → Option String) : Bool × (Field → Option String) :=
  match (computeStepsMS r.accountType).get? currentStep with
  | none => (false, displayed)
  | some cfg => triggerFields r cfg.fields displayed

/-! ## The conditional-steps form (ConditionalStepsForm.tsx) -/

/-- The attendanceType discriminator,
z.enum(["in-person", "virtual", "hybrid"]). -/
inductive AttendanceType
  | inPerson
  | virtualOnly
  | hybrid
deriving DecidableEq

/-- FieldPath values of the event-registration schema. -/
inductive CField
  | name
  | email
  | attendanceType
  | dietaryRestrictions
  | tshirtSize
  | timezone
  | platformPreference
  | howDidYouHear
deriving DecidableEq

/-- The DomainRecord of the event-registration flow; only attendanceType
participates in step composition, the other fields are carried for
completeness. -/
structure EventRegistrationData where
  name : String
  email : String
  attendanceType : AttendanceType
  dietaryRestrictions : Option String
  tshirtSize : Option String
  timezone : Option String
  platformPreference : Option String
  howDidYouHear : String
deriving DecidableEq

/-- A step of the conditional-steps form. -/
structure CStepConfig where
  label : String
  fields : List CField
deriving DecidableEq

/-- The dynamic step list of ConditionalStepsForm: Basic Info and
Attendance always first, then the conditional steps selected by
attendanceType (hybrid appends both, in-person before virtual), then the
always-present Finish step. -/
def computeStepsCS (a : AttendanceType) : List CStepConfig :=
  [⟨"Basic Info", [.name, .email]⟩,
   ⟨"Attendance", [.attendanceType]⟩]
    ++ (match a with
        | .inPerson => [⟨"In-Person", [.dietaryRestrictions, .tshirtSize]⟩]
        | .virtualOnly => [⟨"Virtual", [.timezone, .platformPreference]⟩]
        | .hybrid =>
          [⟨"In-Person", [.dietaryRestrictions, .tshirtSize]⟩,
           ⟨"Virtual", [.timezone, .platformPreference]⟩])
    ++ [⟨"Finish", [.howDidYouHear]⟩]

/-- The index-plus-validation-count fragment of the conditional-steps
component state: currentStep is an Int to mirror JS arithmetic on
steps.length - 1 without truncation, and triggerCount counts how many
validation passes have run. -/
structure CSState where
  currentStep : Int
  triggerCount : Nat
deriving DecidableEq

/-- The render-time clamp of ConditionalStepsForm: safeCurrentStep is
Math.min(currentStep, steps.length - 1) and replaces the index when they
differ.  It is a pure index adjustment: it runs no validation. -/
def renderClamp (len : Int) (st : CSState) : CSState :=
  { st with currentStep := min st.currentStep (len - 1) }

/-- Navigation events of the step machine.  Each event carries the length
of the step list current at the moment it fires; the StepSequence is
recomputed between events, so the length may differ from event to event.
The render clamp runs before any handler can fire (safeCurrentStep is
computed on every render), so next and back act on the clamped index. -/
inductive NavEvent
  | next (len : Int) (valid : Bool)
  | back (len : Int)
  | clamp (len : Int)
  | reset (len : Int)
deriving DecidableEq

/-- The step-list length current when the event fired. -/
def NavEvent.len : NavEvent → Int
  | next l _ => l
  | back l => l
  | clamp l => l
  | reset l => l

/-- One navigation transition on the current index: handleNext advances by
one capped at length - 1 when the step validated; handleBack retreats by
one floored at 0; the render clamp takes the minimum with length - 1;
handleReset returns to 0. -/
def navStep (i : Int) : NavEvent → Int
  | .next len valid =>
    let j := min i (len - 1)
    if valid then min (j + 1) (len - 1) else j
  | .back len =>
    let j := min i (len - 1)
    max (j - 1) 0
  | .clamp len => min i (len - 1)
  | .reset _ => 0

/-- Runs a list of navigation events from an initial index. -/
def navRun (i : Int) (es : List NavEvent) : Int :=
  es.foldl navStep i

/-! ## The derived company step schema (C5) -/

/-- companyStepSchema of src/schemas/onboarding.schema.ts: all three
fields required, companyName and role non-empty, teamSize at least 1. -/
def companyStepAccepts (cn : Option String) (ts : Option Int)
    (rl : Option String) : Bool :=
  (match cn with
   | some s => minLenOk 1 s
   | none => false)
    && (match ts with
        | some t => decide (1 ≤ t)
        | none => false)
    && (match rl with
        | some s => minLenOk 1 s
        | none => false)

/-- The domain schema constraints that depend only on the company step
field set: companyName is z.string().optional() with no further check,
teamSize is z.number().min(1).optional(), role is z.string().optional()
with no further check.  The business-account rules of superRefine read
accountType, a field outside the set, and so do not belong here. -/
def domainWithinCompanyFields (cn : Option String) (ts : Option Int)
    (rl : Option String) : Bool :=
  (match cn with
   | some _ => true
   | none => true)
    && (match ts with
        | some t => decide (1 ≤ t)
        | none => true)
    && (match rl with
        | some _ => true
        | none => true)

/-! ## The per-field timing policy (C9) -/

/-- The UX-relevant state of one field: its current value and whether it
has ever lost focus. -/
structure FieldUX (α : Type) where
  value : α
  touched : Bool
deriving DecidableEq

/-- User-interaction events on one field. -/
inductive FieldEvent (α : Type)
  | change (v : α)
  | blur
deriving DecidableEq

/-- Modelled from the spec: the onTouched validation mode of the form
library (react-hook-form) is an external dependency, not part of this
repository.  Per the spec (§4.3, onTouchedThenChange), a change event
updates the value, a blur event marks the field touched, and touched is
never cleared by later events. -/
def fieldStep {α : Type} (st : FieldUX α) : FieldEvent α → FieldUX α
  | .change v => { st with value := v }
  | .blur => { st with touched := true }

/-- Modelled from the spec: a field displays an error exactly when it has
been touched and its current value fails its validator; an untouched
field never displays an error. -/
def displayedError {α : Type} (valid : α → Bool) (st : FieldUX α) : Bool :=
  st.touched && !(valid st.value)

/-- Runs a list of field events from an initial field state. -/
def fieldRun {α : Type} (st : FieldUX α) (es : List (FieldEvent α)) : FieldUX α :=
  es.foldl fieldStep st

/-! ## Concrete records used to instantiate the theorems -/

/-- Scenario A: a business record, complete and valid except that
companyName is empty. -/
def recA : OnboardingData :=
  { email := "ada@example.com", password := "Password1",
    confirmPassword := "Password1", firstName := "Ada", lastName := "Lovelace",
    phone := "1234567890", accountType := .business,
    companyName := some "", teamSize := some 3, role := some "Engineer" }

/-- A personal record whose only failure is teamSize = 0, a field owned by
no step of the personal step list. -/
def recStuck : OnboardingData :=
  { recA with
    accountType := .personal
    teamSize := some 0
    companyName := some "x" }

/-- A fully valid business record. -/
def recOK : OnboardingData :=
  { recA with
    companyName := some "Acme"
    role := some "CTO" }

/-- An event-registration record with hybrid attendance. -/
def regHybrid : EventRegistrationData :=
  { name := "Ada", email := "ada@example.com", attendanceType := .hybrid,
    dietaryRestrictions := some "None", tshirtSize := some "m",
    timezone := some "UTC", platformPreference := some "zoom",
    howDidYouHear := "newsletter" }

/-! ## Theorems -/

/-- Claim C1: when full-schema validation fails at submission and some
step of the current StepSequence owns the first issue field, onSubmit
sets the current step index to the first such step and makes no endpoint
call. -/
theorem submit_navigates_to_first_failing_step
    (st : MSState) (resp : ApiResponse) (issue : Issue) (rest : List Issue)
    (i : Nat)
    (hparse : fullParse st.store = issue :: rest)
    (hstep : (computeStepsMS st.store.accountType).findIdx?
      (fun s => s.fields.contains issue.path) = some i) :
    (onSubmitMS st resp).1.currentStep = i ∧ (onSubmitMS st resp).2 = [] := by
  have h1 : onSubmitMS st resp = ({ st with currentStep := i }, []) := by
    unfold onSubmitMS
    rw [hparse]
    simp only [List.head?_cons]
    rw [hstep]
  rw [h1]
  exact ⟨rfl, rfl⟩

/-- Instantiation of C1 at Scenario A: accountType business, companyName
empty, all other fields valid; submission navigates to step 3 (Company)
and the endpoint is not called. -/
theorem submit_navigates_to_first_failing_step_witness :
    (onSubmitMS ⟨0, recA, some "draft", none⟩ ApiResponse.reject).1.currentStep = 3 ∧
    (onSubmitMS ⟨0, recA, some "draft", none⟩ ApiResponse.reject).2 = [] :=
  submit_navigates_to_first_failing_step ⟨0, recA, some "draft", none⟩
    ApiResponse.reject
    ⟨Field.companyName, "Company name is required for business accounts"⟩ [] 3
    (by decide) (by decide)

/-- Claim C2, counterexample: at the personal record with teamSize 0 the
full schema fails at teamSize, no step of the personal step list owns
teamSize, and yet onSubmit produces no error signal at all: the state is
returned completely unchanged (submitResult stays none) and no endpoint
call is made, so no Stuck error is surfaced. -/
theorem stuck_submission_surfaces_nothing_cx :
    fullParse recStuck ≠ [] ∧
    (fullParse recStuck).head?.map Issue.path = some Field.teamSize ∧
    (computeStepsMS AccountType.personal).findIdx?
      (fun s => s.fields.contains Field.teamSize) = none ∧
    onSubmitMS ⟨2, recStuck, some "d", none⟩ ApiResponse.reject
      = (⟨2, recStuck, some "d", none⟩, []) ∧
    (onSubmitMS ⟨2, recStuck, some "d", none⟩ ApiResponse.reject).1.submitResult
      = none := by decide

/-- Claim C2, amended: when full-schema validation fails and no step of
the current StepSequence owns the first issue field, onSubmit does not
navigate and does not call the endpoint, but it surfaces no error either:
it returns with the component state unchanged. -/
theorem stuck_submission_returns_silently
    (st : MSState) (resp : ApiResponse) (issue : Issue) (rest : List Issue)
    (hparse : fullParse st.store = issue :: rest)
    (hstep : (computeStepsMS st.store.accountType).findIdx?
      (fun s => s.fields.contains issue.path) = none) :
    onSubmitMS st resp = (st, []) := by
  unfold onSubmitMS
  rw [hparse]
  simp only [List.head?_cons]
  rw [hstep]

/-- Instantiation of the amended C2 at the concrete stuck record. -/
theorem stuck_submission_returns_silently_witness :
    onSubmitMS ⟨2, recStuck, some "d", none⟩ (ApiResponse.ok "u1")
      = (⟨2, recStuck, some "d", none⟩, []) :=
  stuck_submission_returns_silently ⟨2, recStuck, some "d", none⟩
    (ApiResponse.ok "u1")
    ⟨Field.teamSize, "Number must be greater than or equal to 1"⟩ []
    (by decide) (by decide)

/-- Claim C3: the step-validation request returns true iff every field of
the given set passes (no full-schema issue sits at its path), and it
leaves the displayed error state of every field outside the set
unchanged. -/
theorem triggerFields_gates_and_frames
    (r : OnboardingData) (F : List Field) (displayed : Field → Option String) :
    ((triggerFields r F displayed).1 = true ↔
      ∀ f ∈ F, ∀ issue ∈ fullParse r, issue.path ≠ f) ∧
    (∀ f, f ∉ F → (triggerFields r F displayed).2 f = displayed f) := by
  constructor
  · simp [triggerFields, zodFieldError, Option.map_eq_none',
      List.find?_eq_none]
  · intro f hf
    simp [triggerFields, hf]

/-- Instantiation of C3: validating only the email field leaves the
displayed state of password untouched. -/
theorem triggerFields_gates_and_frames_witness :
    (triggerFields recA [Field.email] (fun _ => none)).2 Field.password = none :=
  (triggerFields_gates_and_frames recA [Field.email] (fun _ => none)).2
    Field.password (by decide)

/-- Claim C4: the render-time clamp yields min(oldIndex, length - 1),
which is non-negative whenever the old index was and the list is
non-empty; it is idempotent; and it changes no validation state (the
validation-pass counter is untouched). -/
theorem renderClamp_spec (st : CSState) (len : Int)
    (hst : 0 ≤ st.currentStep) (hlen : 1 ≤ len) :
    (renderClamp len st).currentStep = min st.currentStep (len - 1) ∧
    0 ≤ (renderClamp len st).currentStep ∧
    renderClamp len (renderClamp len st) = renderClamp len st ∧
    (renderClamp len st).triggerCount = st.triggerCount := by
  refine ⟨rfl, ?_, ?_, rfl⟩
  · exact le_min hst (by omega)
  · simp [renderClamp, min_assoc]

/-- Instantiation of C4: index 5 with a list shrunk to length 3 clamps to
2, stays there under a second clamp, and runs no validation. -/
theorem renderClamp_spec_witness :
    (renderClamp 3 ⟨5, 0⟩).currentStep = min 5 (3 - 1) ∧
    0 ≤ (renderClamp 3 ⟨5, 0⟩).currentStep ∧
    renderClamp 3 (renderClamp 3 ⟨5, 0⟩) = renderClamp 3 ⟨5, 0⟩ ∧
    (renderClamp 3 ⟨5, 0⟩).triggerCount = (⟨5, 0⟩ : CSState).triggerCount :=
  renderClamp_spec ⟨5, 0⟩ 3 (by decide) (by decide)

/-- Claim C5, counterexample: companyName empty, teamSize absent, role
empty is accepted by the within-set domain constraints (all three fields
are optional there) but rejected by the derived company step schema, so
the derived validator does not accept exactly the within-set-valid
assignments. -/
theorem companyStep_not_within_set_equivalent_cx :
    companyStepAccepts (some "") none (some "") = false ∧
    domainWithinCompanyFields (some "") none (some "") = true := by decide

/-- Claim C5, amended: the derived company step validator is sound for
the within-set domain constraints (everything it accepts is valid under
the domain constraints that depend only on its field set), but not
complete: it adds step-local requirements (all three fields required,
companyName and role non-empty) that the domain schema does not impose
on those fields in isolation. -/
theorem companyStep_sound_for_domain (cn : Option String) (ts : Option Int)
    (rl : Option String) (h : companyStepAccepts cn ts rl = true) :
    domainWithinCompanyFields cn ts rl = true := by
  cases cn <;> cases ts <;> cases rl <;>
    simp_all [companyStepAccepts, domainWithinCompanyFields]

/-- Instantiation of the amended C5 at a fully filled company step. -/
theorem companyStep_sound_for_domain_witness :
    domainWithinCompanyFields (some "Acme") (some 3) (some "CTO") = true :=
  companyStep_sound_for_domain (some "Acme") (some 3) (some "CTO") (by decide)

/-- Claim C6: with attendanceType hybrid, the computed StepSequence is
exactly Basic Info, Attendance, In-Person, Virtual, Finish: both
conditional steps appear, in-person before virtual, between the fixed
leading steps and the fixed Finish step. -/
theorem computeSteps_hybrid (r : EventRegistrationData)
    (h : r.attendanceType = .hybrid) :
    computeStepsCS r.attendanceType =
      [⟨"Basic Info", [.name, .email]⟩,
       ⟨"Attendance", [.attendanceType]⟩,
       ⟨"In-Person", [.dietaryRestrictions, .tshirtSize]⟩,
       ⟨"Virtual", [.timezone, .platformPreference]⟩,
       ⟨"Finish", [.howDidYouHear]⟩] := by
  rw [h]
  decide

/-- Instantiation of C6 at a concrete hybrid registration record. -/
theorem computeSteps_hybrid_witness :
    computeStepsCS regHybrid.attendanceType =
      [⟨"Basic Info", [.name, .email]⟩,
       ⟨"Attendance", [.attendanceType]⟩,
       ⟨"In-Person", [.dietaryRestrictions, .tshirtSize]⟩,
       ⟨"Virtual", [.timezone, .platformPreference]⟩,
       ⟨"Finish", [.howDidYouHear]⟩] :=
  computeSteps_hybrid regHybrid (by decide)

/-- Claim C7: when the endpoint fails, either with success false or by a
transport-level rejection, onSubmit leaves the form state store, the
persisted draft and the current step unchanged, and the reported message
is the endpoint error string verbatim when a non-empty one is provided
and a generic message otherwise. -/
theorem submit_failure_preserves_state
    (st : MSState) (err : Option String)
    (hvalid : fullParse st.store = []) :
    ((onSubmitMS st (.fail err)).1.store = st.store ∧
     (onSubmitMS st (.fail err)).1.draft = st.draft ∧
     (onSubmitMS st (.fail err)).1.currentStep = st.currentStep ∧
     (onSubmitMS st (.fail err)).1.submitResult = some (false, failMessage err)) ∧
    ((onSubmitMS st .reject).1.store = st.store ∧
     (onSubmitMS st .reject).1.draft = st.draft ∧
     (onSubmitMS st .reject).1.currentStep = st.currentStep ∧
     (onSubmitMS st .reject).1.submitResult
        = some (false, "Network error. Please try again.")) ∧
    (∀ e : String, e ≠ "" → failMessage (some e) = e) ∧
    failMessage none = "Something went wrong" := by
  refine ⟨?_, ?_, ?_, rfl⟩
  · unfold onSubmitMS
    rw [hvalid]
    exact ⟨rfl, rfl, rfl, rfl⟩
  · unfold onSubmitMS
    rw [hvalid]
    exact ⟨rfl, rfl, rfl, rfl⟩
  · intro e he
    have hlen : e.length ≠ 0 := by
      intro hzero
      apply he
      cases e with
      | mk data =>
        simp only [String.length, List.length_eq_zero] at hzero
        rw [hzero]
    simp [failMessage, hlen]

/-- Instantiation of C7 at Scenario D: the endpoint answers success false
with the error string about the registered email; the store and draft are
unchanged and the banner message is exactly that string. -/
theorem submit_failure_preserves_state_witness :
    (onSubmitMS ⟨3, recOK, some "d", none⟩
        (ApiResponse.fail (some "This email is already registered."))).1.store
      = recOK ∧
    (onSubmitMS ⟨3, recOK, some "d", none⟩
        (ApiResponse.fail (some "This email is already registered."))).1.draft
      = some "d" ∧
    (onSubmitMS ⟨3, recOK, some "d", none⟩
        (ApiResponse.fail (some "This email is already registered."))).1.submitResult
      = some (false, failMessage (some "This email is already registered.")) :=
  by
  have h := submit_failure_preserves_state ⟨3, recOK, some "d", none⟩
    (some "This email is already registered.") (by decide)
  exact ⟨h.1.1, h.1.2.1, h.1.2.2.2⟩

/-- Claim C8: a record that passes the full domain schema is submitted:
onSubmit calls the endpoint exactly once, with the store record itself. -/
theorem valid_submission_calls_endpoint_once
    (st : MSState) (resp : ApiResponse)
    (hvalid : fullParse st.store = []) :
    (onSubmitMS st resp).2 = [st.store] := by
  unfold onSubmitMS
  rw [hvalid]
  cases resp <;> rfl

/-- Instantiation of C8 at the fully valid business record. -/
theorem valid_submission_calls_endpoint_once_witness :
    (onSubmitMS ⟨3, recOK, some "d", none⟩ (ApiResponse.ok "u1")).2 = [recOK] :=
  valid_submission_calls_endpoint_once ⟨3, recOK, some "d", none⟩
    (ApiResponse.ok "u1") (by decide)

/-- A change-only event history never touches a field: from an untouched
state, any sequence of change events leaves the touched flag false. -/
theorem fieldRun_changes_untouched {α : Type} (v0 : α) (changes : List α) :
    (fieldRun ⟨v0, false⟩ (changes.map FieldEvent.change)).touched = false := by
  induction changes generalizing v0 with
  | nil => rfl
  | cons c cs ih => simpa [fieldRun, fieldStep] using ih c

/-- Claim C9: under the onTouchedThenChange policy a field that has never
blurred displays no error whatever its value; after changing to an
invalid value and blurring for the first time the error is displayed; and
a subsequent change to a valid value clears the error with no further
blur. -/
theorem onTouchedThenChange_policy {α : Type} (valid : α → Bool)
    (v0 vbad vgood : α) (changes : List α)
    (hbad : valid vbad = false) (hgood : valid vgood = true) :
    displayedError valid (fieldRun ⟨v0, false⟩ (changes.map FieldEvent.change))
      = false ∧
    displayedError valid
      (fieldStep (fieldStep (fieldRun ⟨v0, false⟩ (changes.map FieldEvent.change))
        (FieldEvent.change vbad)) FieldEvent.blur) = true ∧
    displayedError valid
      (fieldStep (fieldStep (fieldStep
          (fieldRun ⟨v0, false⟩ (changes.map FieldEvent.change))
        (FieldEvent.change vbad)) FieldEvent.blur) (FieldEvent.change vgood))
      = false := by
  refine ⟨?_, ?_, ?_⟩
  · simp [displayedError, fieldRun_changes_untouched]
  · simp [displayedError, fieldStep, hbad]
  · simp [displayedError, fieldStep, hgood]

/-- Instantiation of C9 with the required-name validator of the schema
(minimum length 1): the empty value shows no error untouched, shows one
after the first blur, and the error clears on the next change to a
non-empty value. -/
theorem onTouchedThenChange_policy_witness :
    displayedError (minLenOk 1)
      (fieldRun ⟨"", false⟩ (["J"].map FieldEvent.change)) = false ∧
    displayedError (minLenOk 1)
      (fieldStep (fieldStep (fieldRun ⟨"", false⟩ (["J"].map FieldEvent.change))
        (FieldEvent.change "")) FieldEvent.blur) = true ∧
    displayedError (minLenOk 1)
      (fieldStep (fieldStep (fieldStep
          (fieldRun ⟨"", false⟩ (["J"].map FieldEvent.change))
        (FieldEvent.change "")) FieldEvent.blur) (FieldEvent.change "Ada"))
      = false :=
  onTouchedThenChange_policy (minLenOk 1) "" "" "Ada" ["J"]
    (by decide) (by decide)

/-- One navigation event lands in bounds: from a non-negative index, any
event whose step list is non-empty yields an index between 0 and
length - 1. -/
theorem navStep_in_bounds (i : Int) (e : NavEvent)
    (hi : 0 ≤ i) (hlen : 1 ≤ e.len) :
    0 ≤ navStep i e ∧ navStep i e ≤ e.len - 1 := by
  cases e with
  | next len valid =>
    simp only [navStep, NavEvent.len] at *
    cases valid <;> simp <;> omega
  | back len =>
    simp only [navStep, NavEvent.len] at *
    omega
  | clamp len =>
    simp only [navStep, NavEvent.len] at *
    omega
  | reset len =>
    simp only [navStep, NavEvent.len] at *
    omega

/-- Running any well-formed event history from a non-negative index keeps
the index non-negative. -/
theorem navRun_nonneg (es : List NavEvent) (i : Int) (hi : 0 ≤ i)
    (h : ∀ e ∈ es, 1 ≤ e.len) : 0 ≤ navRun i es := by
  induction es generalizing i with
  | nil => simpa [navRun] using hi
  | cons e es ih =>
    have h1 := navStep_in_bounds i e hi (h e (by simp))
    simpa [navRun] using ih (navStep i e) h1.1 (fun x hx => h x (by simp [hx]))

/-- Claim C10: starting from index 0, after every advance, retreat, reset
and shrink-clamp of a history in which the step list is always non-empty,
the index lies between 0 and the length current at that operation minus
one. -/
theorem nav_index_in_bounds (es : List NavEvent) (e : NavEvent)
    (hall : ∀ x ∈ es, 1 ≤ x.len) (hlast : 1 ≤ e.len) :
    0 ≤ navRun 0 (es ++ [e]) ∧ navRun 0 (es ++ [e]) ≤ e.len - 1 := by
  have h0 : 0 ≤ navRun 0 es := navRun_nonneg es 0 le_rfl hall
  have hsplit : navRun 0 (es ++ [e]) = navStep (navRun 0 es) e := by
    simp [navRun]
  rw [hsplit]
  exact navStep_in_bounds _ e h0 hlast

/-- Instantiation of C10: a single validated advance in a three-step list
lands at index 1, within bounds. -/
theorem nav_index_in_bounds_witness :
    0 ≤ navRun 0 ([] ++ [NavEvent.next 3 true]) ∧
    navRun 0 ([] ++ [NavEvent.next 3 true]) ≤ (NavEvent.next 3 true).len - 1 :=
  nav_index_in_bounds [] (NavEvent.next 3 true) (by simp) (by decide)

end RhfZod
